import Mathlib

/-!
Verification of the dprof profiling engine (src/backend/app/profiler/data_profiler.py
and src/backend/app/connectors/file_connector.py) against its design spec.

Modelling conventions, used throughout:
* Python/pandas floats are modelled as exact rationals (`ℚ`); `float('nan')` is
  modelled as `none : Option ℚ`.  Python `round(x, n)` rounds half to even; it is
  modelled exactly on rationals by `pyRound`.
* A pandas cell is `Cell`: missing (`NaN`/`None`), a string (kept as `List Char`,
  the sequence of characters, so that all string computations are structurally
  recursive), or a number.
* Dividing two numpy integer scalars by zero yields `nan` plus a warning
  (`npDiv`, returning `Option ℚ`), while dividing two Python ints by zero raises
  `ZeroDivisionError` (`pyDiv`, returning `Except String ℚ` with the Python
  message "division by zero").  `pandas.Series.isnull().sum()` and the
  object-dtype branch of `_count_blanks` produce numpy scalars; `len(...)` and
  `Series.nunique()` produce Python ints.  This distinction decides exactly
  where `_profile_column` and `_generate_additional_insights` raise on a
  0-row column.
* Exceptions caught by the orchestrator are modelled with `Except String`.
-/

/-! ## Python numeric semantics -/

/-- Python `round` to an integer: round half to even (banker's rounding).
For a tie (`fract q = 1/2`) the even neighbour is `2 * round (q / 2)`;
otherwise it is ordinary rounding to the nearest integer. -/
def pyRound (q : ℚ) : ℤ :=
  if Int.fract q = 1 / 2 then 2 * round (q / 2) else round q

/-- Python `round(q, 1)`. -/
def pyRound1 (q : ℚ) : ℚ := (pyRound (q * 10) : ℚ) / 10

/-- Python `round(q, 2)`. -/
def pyRound2 (q : ℚ) : ℚ := (pyRound (q * 100) : ℚ) / 100

/-- Division of two numpy integer scalars (true division).  With a zero
denominator numpy emits a RuntimeWarning and produces `nan` (the numerators
in this code are counts bounded by the denominator, so `0 / 0`). -/
def npDiv (a b : ℕ) : Option ℚ := if b = 0 then none else some ((a : ℚ) / b)

/-- Division of two Python ints: raises `ZeroDivisionError` on a zero
denominator. -/
def pyDiv (a b : ℕ) : Except String ℚ :=
  if b = 0 then .error "division by zero" else .ok ((a : ℚ) / b)

/-- Python comparison `x > c` where `x` may be `nan`: any comparison with
`nan` is `False`. -/
def optGtBool (x : Option ℚ) (c : ℚ) : Bool :=
  match x with
  | some v => decide (c < v)
  | none => false

/-! ## Data model: cells, columns, frames -/

/-- One pandas cell: missing value, string payload, or numeric payload. -/
inductive Cell where
  | null : Cell
  | str : List Char → Cell
  | num : ℚ → Cell
deriving DecidableEq, Repr

/-- The storage dtype tag of a pandas Series, as inspected by
`_determine_data_type` (lines 218-227). -/
inductive DTag where
  | intTag
  | floatTag
  | datetimeTag
  | boolTag
  | objectTag
deriving DecidableEq, Repr

/-- One column: its storage dtype and its cells. -/
structure PyColumn where
  dtype : DTag
  cells : List Cell
deriving DecidableEq, Repr

/-- A pandas DataFrame: named columns plus its row count (`len(df)`);
in the profiling pipeline every column has `nrows` cells. -/
structure DataFrame where
  cols : List (String × PyColumn)
  nrows : ℕ
deriving DecidableEq, Repr

def Cell.isNull : Cell → Bool
  | .null => true
  | _ => false

/-- Model of `series.isnull().sum()` (a numpy integer scalar). -/
def countNulls (cells : List Cell) : ℕ := cells.countP (fun c => c.isNull)

/-- Model of `series.dropna()`. -/
def dropNA (cells : List Cell) : List Cell := cells.filter (fun c => !c.isNull)

/-- Model of `series.nunique()`: number of distinct non-null values (a Python int). -/
def nunique (cells : List Cell) : ℕ := (dropNA cells).dedup.length

/-- Whether `str(value).strip() == ''` holds for one cell: only a string all of
whose characters are whitespace qualifies (`str(None) = "None"` and
`str(nan) = "nan"` never strip to the empty string, nor does the rendering of
a number). -/
def Cell.isBlank : Cell → Bool
  | .str s => s.all (fun c => c.isWhitespace)
  | _ => false

/-- Model of `_count_blanks` (lines 246-252): for an object-dtype series, the number of
values whose stripped string form is empty (a numpy integer scalar, via
`.sum()`); `0` (a Python int) for every other dtype. -/
def countBlanks (col : PyColumn) : ℕ :=
  if col.dtype = DTag.objectTag then col.cells.countP (fun c => c.isBlank) else 0

/-- The blank share times 100, `(self._count_blanks(series) / total) * 100`:
for object dtype the count is a numpy scalar so a zero denominator gives `nan`;
for any other dtype the count is the Python int `0` and a zero denominator
raises `ZeroDivisionError`. -/
def blankPctTimes100 (col : PyColumn) (total : ℕ) : Except String (Option ℚ) :=
  if col.dtype = DTag.objectTag then
    .ok ((npDiv (countBlanks col) total).map (fun q => q * 100))
  else do
    let q ← pyDiv (countBlanks col) total
    .ok (some (q * 100))

/-! ## TypeInferencer: `_determine_data_type` (lines 214-244) -/

/-- The textual branch of `_determine_data_type` (lines 229-244), for columns
whose storage dtype is `object`.  `pnum v` models "`pd.to_numeric` parses `v`"
and `pdate v` models "`pd.to_datetime` parses `v`"; both library coercions are
all-or-nothing over the whole non-null subset (a single failure raises, which
the source catches and falls through). -/
def determineDataTypeTextual (pnum pdate : Cell → Bool) (cells : List Cell) : String :=
  let nonNull := dropNA cells
  if 0 < nonNull.length then
    if nonNull.all pnum then "numeric"
    else if nonNull.all pdate then "date"
    else "object"
  else "object"

/-- Model of `_determine_data_type`: dispatch on the storage dtype tag, with the
coercion trials only for object (textual) columns. -/
def determineDataType (pnum pdate : Cell → Bool) (col : PyColumn) : String :=
  match col.dtype with
  | .intTag => "int64"
  | .floatTag => "float64"
  | .datetimeTag => "datetime64"
  | .boolTag => "bool"
  | .objectTag => determineDataTypeTextual pnum pdate col.cells

/-! ## Basic per-column statistics: `_profile_column` (lines 171-212) -/

/-- The basic statistics block of a column profile (lines 175-194). `nan`-able
percentage fields are `Option ℚ`. -/
structure BasicStats where
  total_values : ℕ
  null_count : ℕ
  null_percentage : Option ℚ
  blank_count : ℕ
  blank_percentage : Option ℚ
  non_null_count : ℕ
  distinct_count : ℕ
  distinct_percentage : Option ℚ
deriving DecidableEq, Repr

/-- Lines 181-194 of `_profile_column`.  The `Except` layer records exactly
where a `ZeroDivisionError` escapes when `total_records = 0`:
`null_percentage` divides numpy scalars (`nan`, no exception), while
`blank_percentage` (for non-object dtype) and `distinct_percentage` divide
Python ints and raise. -/
def profileColumnBasic (col : PyColumn) (totalRecords : ℕ) : Except String BasicStats := do
  let nullCount := countNulls col.cells
  let nullPct := (npDiv nullCount totalRecords).map (fun q => pyRound2 (q * 100))
  let blankCount := countBlanks col
  let bp ← blankPctTimes100 col totalRecords
  let dq ← pyDiv (nunique col.cells) totalRecords
  pure
    { total_values := totalRecords
      null_count := nullCount
      null_percentage := nullPct
      blank_count := blankCount
      blank_percentage := bp.map pyRound2
      non_null_count := (dropNA col.cells).length
      distinct_count := nunique col.cells
      distinct_percentage := some (pyRound2 (dq * 100)) }

/-! ## QualityScorer: `_generate_additional_insights` (lines 399-444) -/

/-- The insight block: quality score, completeness, uniqueness, issues. -/
structure Insights where
  data_quality_score : ℚ
  completeness : Option ℚ
  uniqueness : ℚ
  potential_issues : List String
deriving DecidableEq, Repr

/-- Model of `_generate_additional_insights`.  The raw percentages are recomputed from
the series (not read back rounded).  On a 0-length series the numpy divisions
for the null and (object-dtype) blank shares produce `nan`, whose comparisons
are all `False`, and the first Python-int division — `series.nunique() /
len(series)` at line 419 — raises `ZeroDivisionError`. -/
def generateAdditionalInsights (col : PyColumn) : Except String Insights := do
  let n := col.cells.length
  let nullCount := countNulls col.cells
  let nullPct : Option ℚ := (npDiv nullCount n).map (fun q => q * 100)
  let qs1 : ℚ := if optGtBool nullPct 0 then 100 - min (nullPct.getD 0) 30 else 100
  let bp ← blankPctTimes100 col n
  let qs2 : ℚ := if optGtBool bp 0 then qs1 - min (bp.getD 0) 20 else qs1
  let dvRaw ← pyDiv (nunique col.cells) n
  let diversity := dvRaw * 100
  let qs3 : ℚ := if 80 < diversity then qs2 + 5 else if diversity < 10 then qs2 - 10 else qs2
  let completeness : Option ℚ := (npDiv (n - nullCount) n).map (fun q => pyRound2 (q * 100))
  let uRaw ← pyDiv (nunique col.cells) n
  let issues : List String :=
    (if optGtBool nullPct 50 then ["High null percentage"] else [])
      ++ (if optGtBool bp 20 then ["High blank percentage"] else [])
      ++ (if diversity < 5 then ["Low data diversity"] else [])
  pure
    { data_quality_score := max 0 (pyRound1 qs3)
      completeness := completeness
      uniqueness := pyRound2 (uRaw * 100)
      potential_issues := issues }

/-- The quality-score formula exactly as the claim states it (penalties capped
at 30 and 20 when nulls/blanks are present, ±diversity adjustment), with no
rounding step.  Stated for comparison with the source's
`_generate_additional_insights`; meaningful for non-empty columns. -/
def specQualityScoreRaw (col : PyColumn) : ℚ :=
  let n : ℚ := col.cells.length
  let nullP : ℚ := (countNulls col.cells) * 100 / n
  let blankP : ℚ := (countBlanks col) * 100 / n
  let div : ℚ := (nunique col.cells) * 100 / n
  100 - (if 0 < nullP then min nullP 30 else 0)
      - (if 0 < blankP then min blankP 20 else 0)
      + (if 80 < div then 5 else 0)
      - (if div < 10 then 10 else 0)

/-- The claim's quality score with its floor clamp at 0. -/
def specQualityScore (col : PyColumn) : ℚ := max 0 (specQualityScoreRaw col)

/-! ## Column orchestration: `_profile_column` and `_profile_dataframe` -/

/-- One successfully profiled column (name, inferred type, statistics,
insights).  The type-specific statistics blocks (`_profile_numeric_column`
etc., lines 254-338) are modelled by their own standalone definitions below,
as the source defines them in separate methods; none of them can raise (each
wraps its body in try/except), so column failure is decided by the blocks
modelled here. -/
structure ColumnProfile where
  column_name : String
  data_type : String
  basic : BasicStats
  insights : Insights
deriving DecidableEq, Repr

/-- Model of `_profile_column`: data type (never raises), basic statistics, insights;
any escaping exception fails just this column. -/
def profileColumn (pnum pdate : Cell → Bool) (col : PyColumn) (name : String)
    (totalRecords : ℕ) : Except String ColumnProfile := do
  let b ← profileColumnBasic col totalRecords
  let ins ← generateAdditionalInsights col
  pure
    { column_name := name
      data_type := determineDataType pnum pdate col
      basic := b
      insights := ins }

/-- A column entry of a TableProfile: profile or error marker (lines 161-167). -/
inductive ColEntry where
  | profile : ColumnProfile → ColEntry
  | failed : String → ColEntry
deriving DecidableEq, Repr

/-- The entry recorded for one column: the profile, or `{"error": str(e)}`. -/
def columnResult (pnum pdate : Cell → Bool) (col : PyColumn) (name : String)
    (totalRecords : ℕ) : ColEntry :=
  match profileColumn pnum pdate col name totalRecords with
  | .ok p => .profile p
  | .error e => .failed e

/-- A table profile (lines 142-150; the `profiled_at` wall-clock timestamp is
outside the model). -/
structure TableProfile where
  table_name : String
  total_records : ℕ
  total_columns : ℕ
  columns : List (String × ColEntry)
deriving DecidableEq, Repr

/-- Model of `_profile_dataframe` (lines 138-169): every column contributes exactly one
entry; a failing column degrades to an error marker and never fails the
table. -/
def profileDataframe (pnum pdate : Cell → Bool) (df : DataFrame) (tableName : String) :
    TableProfile :=
  { table_name := tableName
    total_records := df.nrows
    total_columns := df.cols.length
    columns := df.cols.map (fun nc => (nc.1, columnResult pnum pdate nc.2 nc.1 df.nrows)) }

/-! ## Table orchestration: `profile_file_data` (lines 24-60) -/

/-- A report entry for one table: TableProfile or error marker. -/
inductive TableEntry where
  | table : TableProfile → TableEntry
  | failed : String → TableEntry
deriving DecidableEq, Repr

/-- Model of `_profile_single_table_file` (lines 100-117): fetch the table, profile it;
any exception (in this pipeline, only the fetch can raise — `_profile_dataframe`
is total) is caught and recorded as `{"error": str(e)}`. -/
def tableResult (pnum pdate : Cell → Bool) (fetch : String → Except String DataFrame)
    (t : String) : TableEntry :=
  match fetch t with
  | .ok df => .table (profileDataframe pnum pdate df t)
  | .error e => .failed e

/-- The sequence of percentages passed to `progress_callback` (lines 44-58):
after the k-th completion (1-based) the code reports
`int((completed / total_tables) * 100)`, i.e. the integer truncation (floor,
for non-negative values) of `completed / total * 100`.  The submitted worker
function swallows its own exceptions, so every future takes the success path
and the callback fires exactly once per table. -/
def progressList (n : ℕ) : List ℕ :=
  (List.range n).map (fun k => (k + 1) * 100 / n)

/-- Model of `profile_file_data`: the report (one entry per requested table, keyed by
table name; dictionary contents are independent of the completion order of the
thread pool) paired with the emitted progress sequence. -/
def profileFileData (pnum pdate : Cell → Bool) (fetch : String → Except String DataFrame)
    (tables : List String) : List (String × TableEntry) × List ℕ :=
  (tables.map (fun t => (t, tableResult pnum pdate fetch t)), progressList tables.length)

/-! ## PatternMiner: `_analyze_string_patterns` (lines 340-378) -/

/-- The structural pattern of one string: every decimal digit becomes `'9'`
(`re.sub(r'\d', '9', ...)`), every letter `[a-zA-Z]` becomes `'A'`, every
other character is preserved verbatim.  (The model covers the ASCII range the
repository's data uses: Lean's `Char.isAlpha` is exactly `[a-zA-Z]`, and
`Char.isDigit` coincides with `\d` on ASCII text.) -/
def makePattern (s : List Char) : List Char :=
  s.map (fun c => if c.isDigit then '9' else if c.isAlpha then 'A' else c)

/-- Distinct elements in order of first occurrence — the key order of a Python
`Counter` built by repeated insertion. -/
def firstOccur (xs : List (List Char)) : List (List Char) :=
  xs.foldl (fun acc x => if x ∈ acc then acc else acc ++ [x]) []

/-- Stable descending insertion by count: `x` goes in front of the first
element whose count is `≤` its own, so earlier-inserted keys precede
equal-count later ones, matching `Counter.most_common`. -/
def insertByCount (x : List Char × ℕ) : List (List Char × ℕ) → List (List Char × ℕ)
  | [] => [x]
  | y :: ys => if y.2 ≤ x.2 then x :: y :: ys else y :: insertByCount x ys

/-- Stable sort by count, descending (`Counter.most_common`'s order). -/
def sortByCountDesc (l : List (List Char × ℕ)) : List (List Char × ℕ) :=
  l.foldr insertByCount []

/-- One mined pattern: structure, frequency, share of the sampled set, and up
to 3 example source values in scan order. -/
structure PatternEntry where
  pattern : List Char
  count : ℕ
  percentage : ℚ
  examples : List (List Char)
deriving DecidableEq, Repr

/-- The patterns of the first 1000 values (`for value in string_series.head(1000)`;
the `try/except` around the per-value substitution cannot fire — `re.sub` on
`str(value)` never raises — so every sampled value contributes a pattern). -/
def sampledPatterns (vals : List (List Char)) : List (List Char) :=
  (vals.take 1000).map makePattern

/-- Model of `Counter(patterns).most_common(maxPatterns)`: distinct patterns with their
frequencies, stably sorted by descending count, truncated. -/
def rankedPatterns (vals : List (List Char)) (maxPatterns : ℕ) : List (List Char × ℕ) :=
  (sortByCountDesc
    ((firstOccur (sampledPatterns vals)).map (fun p => (p, (sampledPatterns vals).count p)))).take
    maxPatterns

/-- Lines 363-376: one output record per ranked pattern — its count, its share
of the sampled set, and the first up-to-3 original values that produced it. -/
def buildEntry (vals : List (List Char)) (pc : List Char × ℕ) : PatternEntry :=
  { pattern := pc.1
    count := pc.2
    percentage := pyRound2 ((pc.2 : ℚ) / (sampledPatterns vals).length * 100)
    examples :=
      ((((vals.take 1000).zip (sampledPatterns vals)).filter
        (fun op => op.2 == pc.1)).map Prod.fst).take 3 }

/-- Model of `_analyze_string_patterns`. -/
def analyzeStringPatterns (vals : List (List Char)) (maxPatterns : ℕ) : List PatternEntry :=
  if vals.isEmpty then []
  else (rankedPatterns vals maxPatterns).map (buildEntry vals)

/-! ## Numeric statistics: `_profile_numeric_column` (lines 254-277) -/

/-- Mean of the coerced numeric values. -/
def meanQ (xs : List ℚ) : ℚ := xs.sum / xs.length

/-- Sum of squared deviations from the mean. -/
def sqDevSum (xs : List ℚ) : ℚ := (xs.map (fun x => (x - meanQ xs) ^ 2)).sum

/-- The variance pandas' `Series.std()` takes the square root of: its default
`ddof = 1`, so the divisor is `n - 1` (sample variance). -/
def sampleVariance (xs : List ℚ) : ℚ := sqDevSum xs / ((xs.length : ℚ) - 1)

/-- Population variance (divisor `n`), the quantity the spec's words name. -/
def populationVariance (xs : List ℚ) : ℚ := sqDevSum xs / (xs.length : ℚ)

/-- Python `round(x, 6)` on a real value (ties cannot occur at the irrational
square roots this is applied to, and are handled half-to-even as in `pyRound`). -/
noncomputable def pyRound6R (x : ℝ) : ℝ :=
  (if Int.fract (x * 1000000) = 1 / 2 then 2 * round (x * 1000000 / 2)
   else round (x * 1000000) : ℤ) / 1000000

/-- The `standard_deviation` field of `_profile_numeric_column` (line 269):
`round(float(numeric_series.std()), 6)` where `xs` is the coerced non-null
numeric value list.  pandas `std()` uses `ddof = 1`; with fewer than two values
the result is `NaN` (modelled `none`; for an empty list the source returns the
fallback dict without the field at all, also `none` here). -/
noncomputable def standard_deviation (xs : List ℚ) : Option ℝ :=
  if xs.length ≤ 1 then none
  else some (pyRound6R (Real.sqrt ((sampleVariance xs : ℚ) : ℝ)))

/-! ## FileConnector row caps: `read_data` (lines 171-235) -/

/-- The CSV path: `pd.read_csv(file_path, nrows=max_records)`; `nrows=m` is a
hard cap (`nrows=None` reads everything).  The Excel path (line 230) passes
`nrows` identically. -/
def readCsvRows (rows : List String) (maxRecords : Option ℕ) : List String :=
  match maxRecords with
  | none => rows
  | some m => rows.take m

/-- The JSON-array path (lines 193 and 212):
`records = value[:max_records] if max_records else value` — the slice is taken
only when `max_records` is truthy, so both `None` and `0` leave the data
uncapped. -/
def sliceIfTruthy (records : List String) (maxRecords : Option ℕ) : List String :=
  match maxRecords with
  | none => records
  | some m => if m = 0 then records else records.take m

/-! ## Concrete data shared by witnesses and counterexamples -/

/-- A trivial numeric-coercion trial (always fails) for instantiating the
inference parameters where their outcome is irrelevant. -/
def pnumNever : Cell → Bool := fun _ => false

/-- A trivial date-coercion trial (always fails). -/
def pdateNever : Cell → Bool := fun _ => false

/-- The empty object-dtype column: what each column of a 0-row table is. -/
def emptyColumn : PyColumn := { dtype := DTag.objectTag, cells := [] }

/-- Seven rows: one null and six non-blank strings with three distinct values.
Null share `100/7`, blank share `0`, diversity `300/7 ≈ 42.9`. -/
def sevenRowColumn : PyColumn :=
  { dtype := DTag.objectTag
    cells := [Cell.null, Cell.str ['a'], Cell.str ['a'], Cell.str ['b'], Cell.str ['b'],
      Cell.str ['c'], Cell.str ['c']] }

/-- Five distinct non-null, non-blank values: no penalties, diversity 100% >
80%, so the uncapped bonus pushes the score to 105. -/
def highDiversityColumn : PyColumn :=
  { dtype := DTag.objectTag
    cells := [Cell.str ['v'], Cell.str ['w'], Cell.str ['x'], Cell.str ['y'], Cell.str ['z']] }

/-- A two-row object-dtype data frame used by the orchestration witnesses. -/
def demoFrame : DataFrame :=
  { cols := [("c1", { dtype := DTag.objectTag, cells := [Cell.str ['a'], Cell.str ['b']] })]
    nrows := 2 }

/-- Five requested tables. -/
def demoTables : List String := ["t1", "t2", "t3", "t4", "t5"]

/-- A fetcher whose third table raises while the others yield `demoFrame`. -/
def demoFetch : String → Except String DataFrame := fun t =>
  if t = "t3" then .error "connection reset" else .ok demoFrame

/-! ## Helper lemmas -/

theorem npDiv_of_ne {a b : ℕ} (hb : b ≠ 0) : npDiv a b = some ((a : ℚ) / b) := by
  simp [npDiv, hb]

theorem pyDiv_of_ne {a b : ℕ} (hb : b ≠ 0) : pyDiv a b = .ok ((a : ℚ) / b) := by
  simp [pyDiv, hb]

theorem pyRound_zero : pyRound 0 = 0 := by
  norm_num [pyRound, Int.fract]

theorem pyRound2_zero : pyRound2 0 = 0 := by
  norm_num [pyRound2, pyRound_zero]

theorem blankPctTimes100_pos (col : PyColumn) {n : ℕ} (h : n ≠ 0) :
    blankPctTimes100 col n = .ok (some ((countBlanks col : ℚ) / n * 100)) := by
  unfold blankPctTimes100
  by_cases hd : col.dtype = DTag.objectTag <;>
    simp [hd, npDiv_of_ne h, pyDiv_of_ne h, countBlanks, Bind.bind, Except.bind]

/-- Lemma: `_profile_column`'s basic block succeeds on any positive row count, with
every percentage the 2-decimal rounding of `count / total * 100`. -/
theorem profileColumnBasic_pos (col : PyColumn) {total : ℕ} (h : total ≠ 0) :
    profileColumnBasic col total = .ok
      { total_values := total
        null_count := countNulls col.cells
        null_percentage := some (pyRound2 ((countNulls col.cells : ℚ) / total * 100))
        blank_count := countBlanks col
        blank_percentage := some (pyRound2 ((countBlanks col : ℚ) / total * 100))
        non_null_count := (dropNA col.cells).length
        distinct_count := nunique col.cells
        distinct_percentage := some (pyRound2 ((nunique col.cells : ℚ) / total * 100)) } := by
  unfold profileColumnBasic
  rw [blankPctTimes100_pos col h, pyDiv_of_ne h]
  simp [npDiv_of_ne h, Bind.bind, Except.bind, Pure.pure, Except.pure]

/-- On any non-empty column the scorer succeeds, and its quality score is the
claim's formula value rounded to 1 decimal place, then floor-clamped at 0. -/
theorem generateAdditionalInsights_pos (col : PyColumn) (h : col.cells.length ≠ 0) :
    generateAdditionalInsights col = .ok
      { data_quality_score := max 0 (pyRound1 (specQualityScoreRaw col))
        completeness :=
          some (pyRound2 (((col.cells.length - countNulls col.cells : ℕ) : ℚ) /
            col.cells.length * 100))
        uniqueness := pyRound2 ((nunique col.cells : ℚ) / col.cells.length * 100)
        potential_issues :=
          (if 50 < (countNulls col.cells : ℚ) / col.cells.length * 100 then
            ["High null percentage"] else [])
          ++ (if 20 < (countBlanks col : ℚ) / col.cells.length * 100 then
            ["High blank percentage"] else [])
          ++ (if (nunique col.cells : ℚ) / col.cells.length * 100 < 5 then
            ["Low data diversity"] else []) } := by
  unfold generateAdditionalInsights
  simp only [blankPctTimes100_pos col h, pyDiv_of_ne h, npDiv_of_ne h, Option.map_some',
    Option.getD_some, optGtBool, Bind.bind, Except.bind, Pure.pure, Except.pure,
    decide_eq_true_eq, Except.ok.injEq, Insights.mk.injEq]
  refine ⟨?_, trivial, trivial, trivial⟩
  congr 1
  congr 1
  unfold specQualityScoreRaw
  simp only [div_mul_eq_mul_div]
  split_ifs <;> linarith

theorem mem_insertByCount {x y : List Char × ℕ} :
    ∀ {l : List (List Char × ℕ)}, y ∈ insertByCount x l ↔ y = x ∨ y ∈ l := by
  intro l
  induction l with
  | nil => simp [insertByCount]
  | cons a as ih =>
    by_cases hc : a.2 ≤ x.2
    · simp [insertByCount, hc, List.mem_cons, or_assoc]
    · simp only [insertByCount, hc, if_false, List.mem_cons, ih]
      tauto

theorem pairwise_insertByCount {x : List Char × ℕ} :
    ∀ {l : List (List Char × ℕ)}, l.Pairwise (fun a b => b.2 ≤ a.2) →
      (insertByCount x l).Pairwise (fun a b => b.2 ≤ a.2) := by
  intro l
  induction l with
  | nil => simp [insertByCount]
  | cons a as ih =>
    intro hp
    rw [List.pairwise_cons] at hp
    by_cases hc : a.2 ≤ x.2
    · simp only [insertByCount, hc, if_true]
      refine List.Pairwise.cons ?_ (List.Pairwise.cons hp.1 hp.2)
      intro z hz
      rcases List.mem_cons.1 hz with rfl | hz'
      · exact hc
      · exact le_trans (hp.1 z hz') hc
    · simp only [insertByCount, hc, if_false]
      refine List.Pairwise.cons ?_ (ih hp.2)
      intro z hz
      rcases mem_insertByCount.1 hz with rfl | hz'
      · omega
      · exact hp.1 z hz'

theorem mem_sortByCountDesc {y : List Char × ℕ} :
    ∀ {l : List (List Char × ℕ)}, y ∈ sortByCountDesc l ↔ y ∈ l := by
  intro l
  induction l with
  | nil => simp [sortByCountDesc]
  | cons a as ih =>
    show y ∈ insertByCount a (sortByCountDesc as) ↔ _
    rw [mem_insertByCount]
    simp [ih, List.mem_cons]

theorem pairwise_sortByCountDesc (l : List (List Char × ℕ)) :
    (sortByCountDesc l).Pairwise (fun a b => b.2 ≤ a.2) := by
  induction l with
  | nil => simp [sortByCountDesc]
  | cons a as ih => exact pairwise_insertByCount ih

theorem map_fst_filter_zip_map {α β : Type} [BEq β] (f : α → β) (p : β) :
    ∀ xs : List α,
      (((xs.zip (xs.map f)).filter (fun op => op.2 == p)).map Prod.fst)
        = xs.filter (fun o => f o == p) := by
  intro xs
  induction xs with
  | nil => simp
  | cons a as ih =>
    simp only [List.map_cons, List.zip_cons_cons, List.filter_cons]
    by_cases hc : (f a == p) = true <;> simp [hc, ih]

theorem countNulls_add_dropNA (cells : List Cell) :
    countNulls cells + (dropNA cells).length = cells.length := by
  induction cells with
  | nil => simp [countNulls, dropNA]
  | cons c cs ih =>
    cases hc : c.isNull <;>
      simp only [countNulls, dropNA, List.countP_cons, List.filter_cons, hc] at ih ⊢ <;>
      simp <;> omega

theorem lookup_map_pair {β : Type} (f : String → β) :
    ∀ (ts : List String) (t : String), t ∈ ts →
      (ts.map (fun s => (s, f s))).lookup t = some (f t) := by
  intro ts
  induction ts with
  | nil => intro t ht; simp at ht
  | cons a as ih =>
    intro t ht
    by_cases h : t = a
    · subst h; simp [List.lookup]
    · have hmem : t ∈ as := by
        rcases List.mem_cons.1 ht with rfl | h2
        · exact absurd rfl h
        · exact h2
      have hbeq : (t == a) = false := by
        exact beq_false_of_ne h
      simp [List.lookup, hbeq, ih _ hmem]

/-! ## Claim theorems -/

/-- C1: the claim says that on a column with `total_values == 0` the quality
scorer performs no division by zero and returns score 100, completeness 100,
uniqueness 0 and no issues.  The code instead raises `ZeroDivisionError` (at
`series.nunique() / len(series)`, two Python ints), so the empty column — and
hence every column of a 0-row table — degrades to an error marker; evaluating
both the scorer and the basic-statistics block at the empty column exhibits
the raise. -/
theorem C1_scorer_raises_on_empty_column :
    generateAdditionalInsights emptyColumn = .error "division by zero"
    ∧ profileColumnBasic emptyColumn 0 = .error "division by zero" :=
  ⟨rfl, rfl⟩

/-- C2 (counterexample): with 3 tables, the progress value reported after the
second completion is `int((2/3)*100) = 66`, while the claim's
`round(2/3*100)` is `67`. -/
theorem C2_truncation_counterexample :
    (profileFileData pnumNever pdateNever demoFetch ["t1", "t2", "t3"]).2 = [33, 66, 100]
    ∧ pyRound ((2 : ℚ) / 3 * 100) = 67 := by
  constructor
  · decide
  · rw [pyRound]
    norm_num [Int.fract, round_eq]

/-- C2 (amended): the orchestrator invokes the progress callback once per
completed table with `int(completed / total * 100)` — the truncation, not the
rounding, of the percentage; the sequence of reported values is monotonically
non-decreasing and its final value is exactly 100. -/
theorem C2_progress_truncated_monotone_final (pnum pdate : Cell → Bool)
    (fetch : String → Except String DataFrame) (tables : List String) (h : tables ≠ []) :
    ((profileFileData pnum pdate fetch tables).2.Pairwise (· ≤ ·))
    ∧ (profileFileData pnum pdate fetch tables).2.getLast? = some 100
    ∧ (profileFileData pnum pdate fetch tables).2.length = tables.length := by
  refine ⟨?_, ?_, by simp [profileFileData, progressList]⟩
  · show (progressList tables.length).Pairwise (· ≤ ·)
    unfold progressList
    rw [List.pairwise_map]
    refine (List.pairwise_lt_range tables.length).imp ?_
    intro a b hab
    exact Nat.div_le_div_right (by omega)
  · show (progressList tables.length).getLast? = some 100
    obtain ⟨m, hm⟩ : ∃ m, tables.length = m + 1 := by
      cases htl : tables.length with
      | zero => exact absurd (List.length_eq_zero.1 htl) h
      | succ m => exact ⟨m, rfl⟩
    unfold progressList
    rw [hm, List.range_succ, List.map_append, List.map_cons, List.map_nil,
      List.getLast?_concat]
    congr 1
    exact Nat.mul_div_cancel_left 100 m.succ_pos

/-- C2 (witness): the amended statement at four concrete tables. -/
theorem C2_witness :
    ((profileFileData pnumNever pdateNever demoFetch ["a", "b", "c", "d"]).2.Pairwise (· ≤ ·))
    ∧ (profileFileData pnumNever pdateNever demoFetch ["a", "b", "c", "d"]).2.getLast? = some 100
    ∧ (profileFileData pnumNever pdateNever demoFetch ["a", "b", "c", "d"]).2.length =
      (["a", "b", "c", "d"] : List String).length :=
  C2_progress_truncated_monotone_final pnumNever pdateNever demoFetch ["a", "b", "c", "d"]
    (by simp)

/-- C9: the claim says the file-connector row cap is a hard upper bound for
every format and every cap value, including 0.  For the JSON-array path the
code only slices when `max_records` is truthy, so a cap of 0 is ignored: the
one-record array comes back whole (1 row, not at most 0).  The CSV/Excel path
(`nrows=`) does enforce the cap. -/
theorem C9_json_zero_cap_ignored :
    sliceIfTruthy ["r1"] (some 0) = ["r1"]
    ∧ 1 ≤ (sliceIfTruthy ["r1"] (some 0)).length
    ∧ (∀ (rows : List String) (m : ℕ), (readCsvRows rows (some m)).length ≤ m) := by
  refine ⟨by decide, by decide, ?_⟩
  intro rows m
  simp [readCsvRows]

/-- C10: `distinct_count` is `series.nunique()`, which counts distinct
non-null values only, so it never exceeds `non_null_count`; and on an
entirely-null (but non-empty) column the profile reports `distinct_count = 0`
and `distinct_percentage = 0`. -/
theorem C10_distinct_counts_nonnull :
    (∀ cells : List Cell, nunique cells ≤ (dropNA cells).length)
    ∧ (∀ (col : PyColumn) (total : ℕ), total ≠ 0 →
        (∀ c ∈ col.cells, c.isNull) →
        ∃ b, profileColumnBasic col total = .ok b
          ∧ b.distinct_count = 0 ∧ b.distinct_percentage = some 0) := by
  constructor
  · intro cells
    exact (List.dedup_sublist (dropNA cells)).length_le
  · intro col total h hall
    have hdrop : dropNA col.cells = [] := by
      simp only [dropNA, List.filter_eq_nil_iff]
      intro c hc
      simp [hall c hc]
    have hnu : nunique col.cells = 0 := by simp [nunique, hdrop]
    refine ⟨_, profileColumnBasic_pos col h, hnu, ?_⟩
    simp only [hnu]
    norm_num [pyRound2_zero]

/-- C10 (witness): a three-row entirely-null column. -/
theorem C10_witness :
    ∃ b, profileColumnBasic { dtype := DTag.objectTag, cells := [Cell.null, Cell.null, Cell.null] } 3
        = .ok b ∧ b.distinct_count = 0 ∧ b.distinct_percentage = some 0 :=
  C10_distinct_counts_nonnull.2
    { dtype := DTag.objectTag, cells := [Cell.null, Cell.null, Cell.null] } 3
    (by decide) (by decide)

/-- C8: for every column profiled with a positive row count,
`null_count + non_null_count = total_values` and each percentage field is
`count / total * 100` rounded to 2 decimals.  At `total_values = 0` the code
does not fall back to the documented zero-row convention: the basic block
raises `ZeroDivisionError` and the column degrades to an error marker. -/
theorem C8_percentage_invariants :
    (∀ (col : PyColumn) (total : ℕ), col.cells.length = total → 0 < total →
      ∃ b, profileColumnBasic col total = .ok b
        ∧ b.null_count + b.non_null_count = b.total_values
        ∧ b.null_percentage = some (pyRound2 ((b.null_count : ℚ) / b.total_values * 100))
        ∧ b.blank_percentage = some (pyRound2 ((b.blank_count : ℚ) / b.total_values * 100))
        ∧ b.distinct_percentage = some (pyRound2 ((b.distinct_count : ℚ) / b.total_values * 100)))
    ∧ profileColumnBasic emptyColumn 0 = .error "division by zero" := by
  refine ⟨?_, rfl⟩
  intro col total hlen hpos
  refine ⟨_, profileColumnBasic_pos col (by omega), ?_, rfl, rfl, rfl⟩
  show countNulls col.cells + (dropNA col.cells).length = total
  rw [countNulls_add_dropNA]
  exact hlen

/-- C8 (witness): the seven-row demo column with one null keeps all the
percentage invariants. -/
theorem C8_witness :
    ∃ b, profileColumnBasic sevenRowColumn 7 = .ok b
      ∧ b.null_count + b.non_null_count = b.total_values
      ∧ b.null_percentage = some (pyRound2 ((b.null_count : ℚ) / b.total_values * 100))
      ∧ b.blank_percentage = some (pyRound2 ((b.blank_count : ℚ) / b.total_values * 100))
      ∧ b.distinct_percentage = some (pyRound2 ((b.distinct_count : ℚ) / b.total_values * 100)) :=
  C8_percentage_invariants.1 sevenRowColumn 7 (by decide) (by decide)

/-- C4: textual type inference is all-or-nothing.  If the non-null subset is
non-empty and every value passes the numeric-coercion trial the column is
classified `numeric` (reported as float); if any single value fails it, the
result falls back to the date trial and otherwise to `object` (string); an
empty or entirely-null column is classified `object` (string). -/
theorem C4_type_inference_all_or_nothing (pnum pdate : Cell → Bool) (cells : List Cell) :
    (dropNA cells ≠ [] → (∀ v ∈ dropNA cells, pnum v = true) →
      determineDataTypeTextual pnum pdate cells = "numeric")
    ∧ ((∃ v ∈ dropNA cells, pnum v = false) →
      determineDataTypeTextual pnum pdate cells =
        (if (dropNA cells).all pdate then "date" else "object"))
    ∧ (dropNA cells = [] → determineDataTypeTextual pnum pdate cells = "object") := by
  refine ⟨?_, ?_, ?_⟩
  · intro hne hall
    have hlen : 0 < (dropNA cells).length := List.length_pos.2 hne
    have ha : (dropNA cells).all pnum = true := List.all_eq_true.2 (fun v hv => hall v hv)
    simp [determineDataTypeTextual, hlen, ha]
  · intro hex
    have ha : (dropNA cells).all pnum = false := by
      rcases hex with ⟨v, hv, hf⟩
      cases h1 : (dropNA cells).all pnum
      · rfl
      · have := List.all_eq_true.1 h1 v hv
        rw [hf] at this
        exact absurd this (by simp)
    have hlen : 0 < (dropNA cells).length := by
      rcases hex with ⟨v, hv, _⟩
      exact List.length_pos.2 (List.ne_nil_of_mem hv)
    by_cases hd : (dropNA cells).all pdate = true <;>
      simp [determineDataTypeTextual, hlen, ha, hd]
  · intro hnil
    simp [determineDataTypeTextual, hnil]

/-- C4 (witness): a column of two parsable values and a null is `numeric`; an
entirely-null column is `object`. -/
theorem C4_witness :
    determineDataTypeTextual (fun c => c == Cell.str ['1']) pdateNever
        [Cell.str ['1'], Cell.null, Cell.str ['1']] = "numeric"
    ∧ determineDataTypeTextual (fun c => c == Cell.str ['1']) pdateNever [Cell.null] = "object" :=
  ⟨(C4_type_inference_all_or_nothing (fun c => c == Cell.str ['1']) pdateNever
      [Cell.str ['1'], Cell.null, Cell.str ['1']]).1 (by decide) (by decide),
   (C4_type_inference_all_or_nothing (fun c => c == Cell.str ['1']) pdateNever [Cell.null]).2.2
      (by decide)⟩

/-- C3 (amended): on every non-empty column the reported quality score is the
claim's formula value — start at 100, subtract `min(null%, 30)` when nulls are
present and `min(blank%, 20)` when blanks are present, add 5 when diversity
exceeds 80%, subtract 10 when it is below 10% — rounded to 1 decimal place
(`round(quality_score, 1)`, the step the claim omits), then floor-clamped at 0
with no upper clamp; in particular the high-diversity demo column scores 105,
exceeding 100. -/
theorem C3_quality_score_formula (col : PyColumn) (h : col.cells ≠ []) :
    (∃ i, generateAdditionalInsights col = .ok i
      ∧ i.data_quality_score = max 0 (pyRound1 (specQualityScoreRaw col)))
    ∧ (∃ j, generateAdditionalInsights highDiversityColumn = .ok j
      ∧ j.data_quality_score = 105 ∧ (100 : ℚ) < 105) := by
  have hlen : col.cells.length ≠ 0 := by
    simpa [List.length_eq_zero] using h
  constructor
  · exact ⟨_, generateAdditionalInsights_pos col hlen, rfl⟩
  · refine ⟨_, generateAdditionalInsights_pos highDiversityColumn (by decide), ?_, by norm_num⟩
    show max 0 (pyRound1 (specQualityScoreRaw highDiversityColumn)) = 105
    have hc1 : countNulls highDiversityColumn.cells = 0 := by decide
    have hc2 : countBlanks highDiversityColumn = 0 := by decide
    have hc3 : nunique highDiversityColumn.cells = 5 := by decide
    have hc4 : highDiversityColumn.cells.length = 5 := by decide
    have h5 : specQualityScoreRaw highDiversityColumn = 105 := by
      simp only [specQualityScoreRaw, hc1, hc2, hc3, hc4]
      norm_num [min_def]
    rw [h5]
    have hr : pyRound1 (105 : ℚ) = 105 := by
      rw [pyRound1, pyRound]
      norm_num [Int.fract, round_eq]
    rw [hr]
    norm_num

/-- C3 (counterexample): on the seven-row demo column (one null among seven
rows) the code reports `85.7` — `round(100 - 100/7, 1)` — while the claim's
unrounded formula value is `600/7 = 85.714285…`; the two differ, so the claim
misses the final 1-decimal rounding step. -/
theorem C3_missing_rounding_counterexample :
    (∃ i, generateAdditionalInsights sevenRowColumn = .ok i
      ∧ i.data_quality_score = 857 / 10)
    ∧ specQualityScore sevenRowColumn = 600 / 7
    ∧ (857 / 10 : ℚ) ≠ 600 / 7 := by
  have hc1 : countNulls sevenRowColumn.cells = 1 := by decide
  have hc2 : countBlanks sevenRowColumn = 0 := by decide
  have hc3 : nunique sevenRowColumn.cells = 3 := by decide
  have hc4 : sevenRowColumn.cells.length = 7 := by decide
  have hraw : specQualityScoreRaw sevenRowColumn = 600 / 7 := by
    simp only [specQualityScoreRaw, hc1, hc2, hc3, hc4]
    norm_num [min_def]
  refine ⟨⟨_, generateAdditionalInsights_pos sevenRowColumn (by decide), ?_⟩, ?_, by norm_num⟩
  · show max 0 (pyRound1 (specQualityScoreRaw sevenRowColumn)) = 857 / 10
    rw [hraw]
    have hr : pyRound1 ((600 : ℚ) / 7) = 857 / 10 := by
      rw [pyRound1, pyRound]
      norm_num [Int.fract, round_eq]
    rw [hr]
    norm_num
  · rw [specQualityScore, hraw]
    norm_num

/-- C3 (witness): the amended statement instantiated at the seven-row demo
column. -/
theorem C3_witness :
    (∃ i, generateAdditionalInsights sevenRowColumn = .ok i
      ∧ i.data_quality_score = max 0 (pyRound1 (specQualityScoreRaw sevenRowColumn)))
    ∧ (∃ j, generateAdditionalInsights highDiversityColumn = .ok j
      ∧ j.data_quality_score = 105 ∧ (100 : ℚ) < 105) :=
  C3_quality_score_formula sevenRowColumn (by decide)

/-- C5: with distinct requested table names the report has exactly one entry
per table; a table whose fetch raises is recorded as an error marker while
every sibling with a successful fetch gets the fully realized table profile
(its per-column entries computed only from its own frame); and within a table
every source column contributes exactly one entry, a failing column appearing
as its error marker without failing the table. -/
theorem C5_partial_failure_isolated (pnum pdate : Cell → Bool)
    (fetch : String → Except String DataFrame) (tables : List String) (h : tables.Nodup) :
    ((profileFileData pnum pdate fetch tables).1.map Prod.fst = tables
      ∧ ((profileFileData pnum pdate fetch tables).1.map Prod.fst).Nodup)
    ∧ (∀ t ∈ tables, ∀ e, fetch t = .error e →
        (profileFileData pnum pdate fetch tables).1.lookup t = some (.failed e))
    ∧ (∀ t ∈ tables, ∀ df, fetch t = .ok df →
        (profileFileData pnum pdate fetch tables).1.lookup t =
          some (.table (profileDataframe pnum pdate df t)))
    ∧ (∀ (df : DataFrame) (name : String),
        (profileDataframe pnum pdate df name).columns.map Prod.fst = df.cols.map Prod.fst
        ∧ (profileDataframe pnum pdate df name).total_columns = df.cols.length
        ∧ (∀ nc ∈ df.cols,
            (nc.1, columnResult pnum pdate nc.2 nc.1 df.nrows)
              ∈ (profileDataframe pnum pdate df name).columns)
        ∧ (∀ (col : PyColumn) (cname : String) (msg : String),
            profileColumn pnum pdate col cname df.nrows = .error msg →
              columnResult pnum pdate col cname df.nrows = .failed msg)) := by
  have hmapfst : (profileFileData pnum pdate fetch tables).1.map Prod.fst = tables := by
    simp [profileFileData, Function.comp_def]
  have hlook : ∀ t ∈ tables,
      (profileFileData pnum pdate fetch tables).1.lookup t
        = some (tableResult pnum pdate fetch t) :=
    fun t ht => lookup_map_pair (tableResult pnum pdate fetch) tables t ht
  refine ⟨⟨hmapfst, by rwa [hmapfst]⟩, ?_, ?_, ?_⟩
  · intro t ht e he
    rw [hlook t ht]
    simp [tableResult, he]
  · intro t ht df hdf
    rw [hlook t ht]
    simp [tableResult, hdf]
  · intro df name
    refine ⟨by simp [profileDataframe], rfl, ?_, ?_⟩
    · intro nc hnc
      have hmem := List.mem_map_of_mem
        (fun nc => (nc.1, columnResult pnum pdate nc.2 nc.1 df.nrows)) hnc
      simpa [profileDataframe] using hmem
    · intro col cname msg hmsg
      simp [columnResult, hmsg]

/-- C5 (witness): five requested tables, the third of which fails to fetch;
its entry is the error marker and a sibling's entry is the full profile. -/
theorem C5_witness :
    (profileFileData pnumNever pdateNever demoFetch demoTables).1.lookup "t3"
        = some (.failed "connection reset")
    ∧ (profileFileData pnumNever pdateNever demoFetch demoTables).1.lookup "t1"
        = some (.table (profileDataframe pnumNever pdateNever demoFrame "t1")) := by
  have h := C5_partial_failure_isolated pnumNever pdateNever demoFetch demoTables (by decide)
  exact ⟨h.2.1 "t3" (by decide) "connection reset" rfl,
    h.2.2.1 "t1" (by decide) demoFrame rfl⟩

theorem sum_sq_sub (c : ℚ) : ∀ xs : List ℚ,
    (xs.map (fun x => (x - c) ^ 2)).sum
      = (xs.map (fun x => x ^ 2)).sum - 2 * c * xs.sum + xs.length * c ^ 2 := by
  intro xs
  induction xs with
  | nil => simp
  | cons a as ih =>
    simp only [List.map_cons, List.sum_cons, List.length_cons, ih]
    push_cast
    ring

theorem sampleVariance_uncentered (xs : List ℚ) (h : 2 ≤ xs.length) :
    sampleVariance xs
      = ((xs.length : ℚ) * (xs.map (fun x => x ^ 2)).sum - xs.sum ^ 2)
        / ((xs.length : ℚ) * ((xs.length : ℚ) - 1)) := by
  have h2 : (2 : ℚ) ≤ xs.length := by exact_mod_cast h
  have hn : (xs.length : ℚ) ≠ 0 := by linarith
  have hn1 : (xs.length : ℚ) - 1 ≠ 0 := by
    intro hcon
    have : (xs.length : ℚ) = 1 := by linarith
    linarith
  rw [sampleVariance, sqDevSum, sum_sq_sub, meanQ]
  field_simp
  ring

/-- C6 (amended): for two or more coerced values the `standard_deviation`
field is the 6-decimal rounding of the square root of the SAMPLE variance
(pandas `std()` default `ddof = 1`, divisor `n − 1`), here in its equivalent
uncentered form `(n·Σx² − (Σx)²) / (n(n−1))`; with a single value pandas
yields `NaN`, not the population value 0. -/
theorem C6_sample_std_formula (xs : List ℚ) (h : 2 ≤ xs.length) :
    standard_deviation xs = some (pyRound6R (Real.sqrt
      (((((xs.length : ℚ) * (xs.map (fun x => x ^ 2)).sum - xs.sum ^ 2)
        / ((xs.length : ℚ) * ((xs.length : ℚ) - 1))) : ℚ) : ℝ))) := by
  rw [standard_deviation, if_neg (by omega), sampleVariance_uncentered xs h]

/-- C6 (witness): the amended statement at the two-value list `[0, 2]`. -/
theorem C6_witness :
    standard_deviation [(0 : ℚ), 2] = some (pyRound6R (Real.sqrt
      ((((([(0 : ℚ), 2].length : ℚ) * ([(0 : ℚ), 2].map (fun x => x ^ 2)).sum
          - [(0 : ℚ), 2].sum ^ 2)
        / (([(0 : ℚ), 2].length : ℚ) * (([(0 : ℚ), 2].length : ℚ) - 1))) : ℚ) : ℝ))) :=
  C6_sample_std_formula [(0 : ℚ), 2] (by norm_num)

/-- C6 (counterexample): the claim says the field is the rounded POPULATION
standard deviation.  On `[0, 2]` the code's value is `round(sqrt(2), 6) =
1.414214…`, not the population value `round(sqrt(1), 6) = 1`; and on the
one-element list `[5]` the code reports `NaN` where the claim demands 0. -/
theorem C6_population_std_counterexample :
    standard_deviation [(0 : ℚ), 2]
        ≠ some (pyRound6R (Real.sqrt ((populationVariance [(0 : ℚ), 2] : ℚ) : ℝ)))
    ∧ standard_deviation [(5 : ℚ)] = none := by
  constructor
  · have hsv : sampleVariance [(0 : ℚ), 2] = 2 := by
      norm_num [sampleVariance, sqDevSum, meanQ]
    have hpv : populationVariance [(0 : ℚ), 2] = 1 := by
      norm_num [populationVariance, sqDevSum, meanQ]
    rw [standard_deviation, if_neg (by norm_num), hsv, hpv]
    have hcast2 : (((2 : ℚ) : ℝ)) = 2 := by norm_num
    have hcast1 : (((1 : ℚ) : ℝ)) = 1 := by norm_num
    rw [hcast2, hcast1, Real.sqrt_one]
    have hone : pyRound6R 1 = 1 := by
      rw [pyRound6R]
      norm_num [Int.fract, round_eq]
    rw [hone]
    -- it remains to show round(sqrt 2, 6) ≠ 1
    have hfr : Int.fract (Real.sqrt 2 * 1000000) ≠ 1 / 2 := by
      intro hfr
      apply irrational_sqrt_two
      refine ⟨((⌊Real.sqrt 2 * 1000000⌋ : ℚ) + 1 / 2) / 1000000, ?_⟩
      have hx : Real.sqrt 2 * 1000000
          = (⌊Real.sqrt 2 * 1000000⌋ : ℝ) + 1 / 2 := by
        simp only [Int.fract] at hfr
        linarith
      push_cast
      linarith
    have hge : (1414213 : ℝ) ≤ Real.sqrt 2 * 1000000 := by
      have h0 : (0 : ℝ) ≤ 1414213 / 1000000 := by norm_num
      have h1 : (1414213 / 1000000 : ℝ) ≤ Real.sqrt 2 := by
        nlinarith [Real.sq_sqrt (by norm_num : (0 : ℝ) ≤ 2), Real.sqrt_nonneg 2]
      linarith
    have hflo : (1414213 : ℤ) ≤ ⌊Real.sqrt 2 * 1000000⌋ := Int.le_floor.2 (by exact_mod_cast hge)
    have hrd : (1414213 : ℤ) ≤ round (Real.sqrt 2 * 1000000) := by
      rw [round_eq]
      refine le_trans hflo (Int.floor_le_floor ?_)
      linarith
    intro hcon
    have heq : pyRound6R (Real.sqrt 2) = 1 := Option.some.inj hcon
    rw [pyRound6R, if_neg hfr] at heq
    have hcast : (1414213 : ℝ) ≤ ((round (Real.sqrt 2 * 1000000) : ℤ) : ℝ) := by
      exact_mod_cast hrd
    have : (1 : ℝ) < ((round (Real.sqrt 2 * 1000000) : ℤ) : ℝ) / 1000000 := by
      linarith
    rw [heq] at this
    linarith
  · rw [standard_deviation]
    norm_num

/-- C7: the pattern miner.  On `["A1", "B2", "C3"]` it returns the single
pattern `"A9"` with count 3, percentage 100 and the three originals as
examples.  In general every returned entry's count is the frequency of its
pattern among the first 1000 mapped values (digits to `'9'`, letters to `'A'`,
other characters verbatim — the definition of `makePattern`), its percentage
is the 2-decimal rounding of `count / sampled * 100`, its examples are the
first at most 3 matching originals in scan order, and entries come sorted by
descending frequency. -/
theorem C7_pattern_mining :
    (analyzeStringPatterns [['A', '1'], ['B', '2'], ['C', '3']] 20 =
      [{ pattern := ['A', '9'], count := 3, percentage := 100,
         examples := [['A', '1'], ['B', '2'], ['C', '3']] }])
    ∧ (∀ (vals : List (List Char)) (k : ℕ), ∀ e ∈ analyzeStringPatterns vals k,
        e.count = (sampledPatterns vals).count e.pattern
        ∧ e.percentage = pyRound2 ((e.count : ℚ) / (sampledPatterns vals).length * 100)
        ∧ e.examples = (((vals.take 1000).filter
            (fun o => makePattern o == e.pattern)).take 3)
        ∧ e.examples.length ≤ 3)
    ∧ (∀ (vals : List (List Char)) (k : ℕ),
        (analyzeStringPatterns vals k).Pairwise (fun a b => b.count ≤ a.count)) := by
  refine ⟨?_, ?_, ?_⟩
  · have hrk : rankedPatterns [['A', '1'], ['B', '2'], ['C', '3']] 20 = [(['A', '9'], 3)] := by
      decide
    have hlen : (sampledPatterns [['A', '1'], ['B', '2'], ['C', '3']]).length = 3 := by decide
    rw [analyzeStringPatterns]
    simp only [List.isEmpty_cons, Bool.false_eq_true, if_false, hrk, List.map_cons, List.map_nil]
    rw [buildEntry]
    simp only [hlen, List.cons.injEq, and_true, PatternEntry.mk.injEq]
    norm_num [pyRound2, pyRound, Int.fract, round_eq]
    decide
  · intro vals k e he
    rw [analyzeStringPatterns] at he
    by_cases hemp : vals.isEmpty
    · simp [hemp] at he
    · simp only [hemp, Bool.false_eq_true, if_false] at he
      rcases List.mem_map.1 he with ⟨pc, hpc, rfl⟩
      have hpc2 : pc ∈ sortByCountDesc ((firstOccur (sampledPatterns vals)).map
          (fun p => (p, (sampledPatterns vals).count p))) := by
        rw [rankedPatterns] at hpc
        exact List.mem_of_mem_take hpc
      rw [mem_sortByCountDesc] at hpc2
      rcases List.mem_map.1 hpc2 with ⟨p, hp, rfl⟩
      refine ⟨rfl, rfl, ?_, ?_⟩
      · show (((((vals.take 1000).zip (sampledPatterns vals)).filter
            (fun op => op.2 == p)).map Prod.fst).take 3) = _
        rw [show sampledPatterns vals = (vals.take 1000).map makePattern from rfl,
          map_fst_filter_zip_map]
        rfl
      · exact List.length_take_le 3 _
  · intro vals k
    rw [analyzeStringPatterns]
    by_cases hemp : vals.isEmpty
    · simp [hemp]
    · simp only [hemp, Bool.false_eq_true, if_false]
      refine List.Pairwise.map _ (fun a b hab => hab) ?_
      rw [rankedPatterns]
      exact ((pairwise_sortByCountDesc _).sublist (List.take_sublist _ _))
